import Mathlib

/-!
Verification development for the mcp-chrome native-messaging bridge.

Shallow embedding of three source files:
- `app/native-server/src/mcp/register-tools.ts` (Tool Bridge: `setupTools`,
  `handleToolCall`),
- `app/chrome-extension/entrypoints/background/native-host.ts` (Dispatcher:
  the native-port `onMessage` listener, `connectNativeHost`, server-status
  persistence and broadcast, the `GET_SERVER_STATUS` runtime-message branch),
- the native-server entry script (`log`, process-level exception and
  rejection handlers).

JavaScript values carried in message payloads are modelled by the `JVal`
inductive. Asynchronous collaborators that live outside these files
(`chrome.storage`, `chrome.runtime.sendMessage`, `handleCallTool` from
`./tools`, `sendRequestToExtensionAndWait` from the native-messaging host)
are modelled as environment parameters; the observable actions of a handler
are returned as an ordered list of `Effect`s, mirroring the order in which
the source performs (and awaits) them.
-/

namespace McpChrome

/-- JavaScript-like structured values appearing in message payloads.
`jundefined` stands for JavaScript `undefined` (an absent field). -/
inductive JVal where
  | jundefined
  | jnull
  | jbool (b : Bool)
  | jnum (n : Int)
  | jstr (s : String)
  | jobj (fields : List (String × JVal))

/-- Property access `v.k` in JavaScript: on an object, the value of the
first binding of `k` (or `undefined`); on every non-object, `undefined`
(this also models the optional-chaining read `payload?.k`). -/
def JVal.getField : JVal → String → JVal
  | .jobj fields, k =>
      match fields.find? (fun p => p.1 = k) with
      | some p => p.2
      | none => .jundefined
  | _, _ => .jundefined

/-- Numeric field extraction: the TypeScript interface types the stored
`port` as `number | undefined`, so a non-numeric field reads as absent. -/
def JVal.getNumField (v : JVal) (k : String) : Option Int :=
  match v.getField k with
  | .jnum n => some n
  | _ => none

/-- `JSON.stringify` on the modelled values (used only to build the text
content of a tool-call result). -/
def JVal.stringify : JVal → String
  | .jundefined => "null"
  | .jnull => "null"
  | .jbool b => if b then "true" else "false"
  | .jnum n => toString n
  | .jstr s => "\x22" ++ s ++ "\x22"
  | .jobj fields =>
      "\x7b" ++ String.intercalate ","
        (fields.attach.map
          (fun p => "\x22" ++ p.1.1 ++ "\x22:" ++ p.1.2.stringify))
      ++ "\x7d"
decreasing_by
  simp_wf
  have hmem := List.sizeOf_lt_of_mem p.2
  cases hp : p.1 with
  | mk a b => simp [hp] at hmem ⊢; omega

/-- The `NativeMessageType` enumeration from `chrome-mcp-shared`; `other`
covers every wire string outside the closed vocabulary. -/
inductive NativeMessageType where
  | START
  | LIST_TOOLS
  | CALL_TOOL
  | PROCESS_DATA
  | SERVER_STARTED
  | SERVER_STOPPED
  | ERROR_FROM_NATIVE_HOST
  | CONNECT_NATIVE
  | PING_NATIVE
  | DISCONNECT_NATIVE
  | other (s : String)
deriving DecidableEq

/-- Printable name of a message type (used only in log text). -/
def NativeMessageType.name : NativeMessageType → String
  | .START => "start"
  | .LIST_TOOLS => "list_tools"
  | .CALL_TOOL => "call_tool"
  | .PROCESS_DATA => "process_data"
  | .SERVER_STARTED => "server_started"
  | .SERVER_STOPPED => "server_stopped"
  | .ERROR_FROM_NATIVE_HOST => "error_from_native_host"
  | .CONNECT_NATIVE => "connect_native"
  | .PING_NATIVE => "ping_native"
  | .DISCONNECT_NATIVE => "disconnect_native"
  | .other s => s

/-- An inbound frame from the native host as seen by the extension's
`onMessage` listener. `requestId = none` models an absent (or falsy)
`message.requestId`. -/
structure NativeMessage where
  type : NativeMessageType
  requestId : Option Nat
  payload : JVal

/-- The `payload` object of a correlated response frame built by the
dispatcher (`status`, `message`, optional `data`, optional `error`). -/
structure ResponsePayload where
  status : String
  message : String
  data : Option JVal
  error : Option String

/-- A frame posted by the extension on the native port: either a correlated
response (`responseToRequestId` + payload) or a typed message such as the
`start` message. -/
inductive OutFrame where
  | response (responseToRequestId : Nat) (payload : ResponsePayload)
  | typed (type : NativeMessageType) (payload : JVal)

/-- The extension's `ServerStatus` record (`isRunning`, optional `port`,
`lastUpdated`). -/
structure ServerStatus where
  isRunning : Bool
  port : Option Int
  lastUpdated : Nat
deriving DecidableEq

/-- Module-level mutable state of `native-host.ts`: whether `nativePort`
is non-null, and `currentServerStatus`. -/
structure HostState where
  nativePort : Bool
  currentServerStatus : ServerStatus

/-- One observable action of a handler, in the order the source performs
them: posting a frame on the native port, the `chrome.storage` write
attempt (with its recorded outcome), the status-change broadcast, or a
console log line. -/
inductive Effect where
  | sendFrame (frame : OutFrame)
  | persist (status : ServerStatus) (ok : Bool)
  | broadcast (status : ServerStatus)
  | logEvent (message : String)

/-- Constants from `@/common/constants` (exact wording opaque to the core;
only identity of each constant matters). -/
def SUCCESS_MESSAGES.TOOL_EXECUTED : String := "Tool executed successfully"

def ERROR_MESSAGES.TOOL_EXECUTION_FAILED : String := "Tool execution failed"

def ERROR_MESSAGES.SERVER_STATUS_SAVE_FAILED : String :=
  "Failed to save server status"

def ERROR_MESSAGES.NATIVE_CONNECTION_FAILED : String :=
  "Failed to connect to native host"

def NATIVE_HOST.DEFAULT_PORT : Int := 12306

/-- Environment of the dispatcher for one inbound frame: the value of
`Date.now()`, the `handleCallTool` collaborator from `./tools` (its
result, or the message of the error it throws), and whether the
`chrome.storage.local.set` write succeeds. -/
structure DispatchEnv where
  now : Nat
  handleCallTool : JVal → Except String JVal
  storageOk : Bool

/-- `nativePort?.postMessage(frame)`: posts only when the port is
non-null. -/
def postMessageOpt (st : HostState) (frame : OutFrame) : List Effect :=
  if st.nativePort then [.sendFrame frame] else []

/-- `saveServerStatus`: awaits the `chrome.storage.local.set` write inside
a `try`; a failure is caught and recorded via `console.error`, never
rethrown. -/
def saveServerStatus (storageOk : Bool) (status : ServerStatus) : List Effect :=
  if storageOk then [.persist status true]
  else [.persist status false, .logEvent ERROR_MESSAGES.SERVER_STATUS_SAVE_FAILED]

/-- `broadcastServerStatusChange`: fire-and-forget
`chrome.runtime.sendMessage`, delivery errors ignored. -/
def broadcastServerStatusChange (status : ServerStatus) : List Effect :=
  [.broadcast status]

/-- The native-port `onMessage` listener installed by `connectNativeHost`:
dispatch on `message.type` (guarded by `message.requestId` for the two
request kinds), returning the updated module state and the ordered list of
observable actions. The branch order follows the source's if/else-if
chain; a `PROCESS_DATA` or `CALL_TOOL` frame without a `requestId` falls
through to the final else branch exactly as in the source. -/
def onNativeMessage (env : DispatchEnv) (st : HostState) (msg : NativeMessage) :
    HostState × List Effect :=
  match msg.type, msg.requestId with
  | .PROCESS_DATA, some requestId =>
      (st, postMessageOpt st (.response requestId
        ⟨"success", SUCCESS_MESSAGES.TOOL_EXECUTED, some msg.payload, none⟩))
  | .CALL_TOOL, some requestId =>
      (match env.handleCallTool msg.payload with
       | .ok result =>
          (st, postMessageOpt st (.response requestId
            ⟨"success", SUCCESS_MESSAGES.TOOL_EXECUTED, some result, none⟩))
       | .error e =>
          (st, postMessageOpt st (.response requestId
            ⟨"error", ERROR_MESSAGES.TOOL_EXECUTION_FAILED, none, some e⟩)))
  | .SERVER_STARTED, _ =>
      let newStatus : ServerStatus :=
        ⟨true, msg.payload.getNumField "port", env.now⟩
      ({ st with currentServerStatus := newStatus },
        saveServerStatus env.storageOk newStatus
          ++ broadcastServerStatusChange newStatus)
  | .SERVER_STOPPED, _ =>
      let newStatus : ServerStatus :=
        ⟨false, st.currentServerStatus.port, env.now⟩
      ({ st with currentServerStatus := newStatus },
        saveServerStatus env.storageOk newStatus
          ++ broadcastServerStatusChange newStatus)
  | .ERROR_FROM_NATIVE_HOST, _ =>
      (st, [.logEvent ("Error from native host: "
        ++ (match msg.payload.getField "message" with
            | .jstr s => if s = "" then "Unknown error" else s
            | _ => "Unknown error"))])
  | t, _ =>
      (st, [.logEvent ("Received unknown message type from native host: "
        ++ t.name)])

/-- The `GET_SERVER_STATUS` branch of the runtime-message listener in
`initNativeHostListener`: answers with the in-memory status and the
connection flag. -/
structure ServerStatusResponse where
  success : Bool
  serverStatus : ServerStatus
  connected : Bool
deriving DecidableEq

def getServerStatusResponse (st : HostState) : ServerStatusResponse :=
  ⟨true, st.currentServerStatus, st.nativePort⟩

/-- Whether `chrome.runtime.connectNative` succeeds or throws. -/
structure ConnectEnv where
  connectSucceeds : Bool

/-- The `start` message posted right after connecting. -/
def startFrame (port : Int) : OutFrame :=
  .typed .START (.jobj [("port", .jnum port)])

/-- `connectNativeHost(port)`: early-returns when `nativePort` is already
non-null; otherwise opens the channel (a `connectNative` throw is caught
and logged) and posts the `start` message. -/
def connectNativeHost (env : ConnectEnv) (port : Int) (st : HostState) :
    HostState × List Effect :=
  if st.nativePort then
    (st, [.logEvent "Native port already connected, skipping connection"])
  else if env.connectSucceeds then
    ({ st with nativePort := true }, [.sendFrame (startFrame port)])
  else
    (st, [.logEvent ERROR_MESSAGES.NATIVE_CONNECTION_FAILED])

/-- A request handed to `sendRequestToExtensionAndWait`: payload, message
type, timeout in milliseconds. -/
structure SentRequest where
  payload : JVal
  type : NativeMessageType
  timeoutMs : Nat

/-- Environment of the Tool Bridge: the outcome of the correlated exchange
performed by the native-messaging host for a given request (`.ok` with the
resolved value, `.error` with the message of the rejection — remote error
reply, timeout, or disconnect). -/
structure BridgeEnv where
  exchange : SentRequest → Except String JVal

/-- `nativeMessagingHostInstance.sendRequestToExtensionAndWait(payload,
type, timeoutMs)`: issues the request and yields its outcome. The issued
request is returned so that theorems can speak about what was sent. -/
def sendRequestToExtensionAndWait (env : BridgeEnv) (payload : JVal)
    (type : NativeMessageType) (timeoutMs : Nat) :
    SentRequest × Except String JVal :=
  let req : SentRequest := ⟨payload, type, timeoutMs⟩
  (req, env.exchange req)

/-- The `ListToolsRequestSchema` handler registered by `setupTools`:
sends a `LIST_TOOLS` request with an empty payload and a 30000 ms timeout
and returns `\x7b tools: tools.data \x7d`; a rejected exchange propagates
to the protocol server. -/
def listToolsHandler (env : BridgeEnv) : SentRequest × Except String JVal :=
  let r := sendRequestToExtensionAndWait env (.jobj []) .LIST_TOOLS 30000
  (r.1, r.2.map (fun tools => .jobj [("tools", tools.getField "data")]))

/-- One item of a `CallToolResult`'s `content` array. -/
structure ContentItem where
  type : String
  text : String
deriving DecidableEq

/-- The MCP `CallToolResult`: content plus the `isError` flag. -/
structure CallToolResult where
  content : List ContentItem
  isError : Bool
deriving DecidableEq

/-- `handleToolCall(name, args)` from `register-tools.ts`: sends a
`CALL_TOOL` request with payload `\x7b name, args \x7d` and a 30000 ms
timeout inside a `try`; a successful exchange yields a non-error result
whose text is the stringified response, any thrown error is caught and
yields an error-flagged result. The issued request is returned alongside. -/
def handleToolCall (env : BridgeEnv) (name : String) (args : JVal) :
    SentRequest × CallToolResult :=
  let r := sendRequestToExtensionAndWait env
    (.jobj [("name", .jstr name), ("args", args)]) .CALL_TOOL 30000
  match r.2 with
  | .ok response =>
      (r.1, ⟨[⟨"text", response.stringify⟩], false⟩)
  | .error e =>
      (r.1, ⟨[⟨"text", "Error calling tool: " ++ e⟩], true⟩)

/-- The append-only log file of the native-server entry script. -/
structure LogState where
  entries : List String
deriving DecidableEq

/-- `log(message)`: formats `[timestamp] message\n` and appends it;
`writable = false` models an `appendFileSync` failure, which is caught and
silently swallowed. -/
def log (writable : Bool) (timestamp : String) (st : LogState)
    (message : String) : LogState :=
  let logMessage := "[" ++ timestamp ++ "] " ++ message ++ "\n"
  if writable then { entries := st.entries ++ [logMessage] } else st

/-- Result of a process-level event handler: the log file afterwards, and
`some code` when the handler calls `process.exit(code)` (`none` when the
process keeps running). -/
structure ProcessOutcome where
  logState : LogState
  exitCode : Option Nat
deriving DecidableEq

/-- The `process.on('uncaughtException')` handler: log the error, then
`process.exit(1)`. -/
def onUncaughtException (writable : Bool) (timestamp : String)
    (st : LogState) (errMessage errStack : String) : ProcessOutcome :=
  ⟨log writable timestamp st
    ("Uncaught exception: " ++ errMessage ++ "\nStack: " ++ errStack),
   some 1⟩

/-- The `process.on('unhandledRejection')` handler: log the reason and
continue running (no exit). -/
def onUnhandledRejection (writable : Bool) (timestamp : String)
    (st : LogState) (reasonMessage : String) : ProcessOutcome :=
  ⟨log writable timestamp st ("Unhandled rejection: " ++ reasonMessage),
   none⟩

/-- Membership of a status in a list (decidable scan). -/
def statusMem (s : ServerStatus) : List ServerStatus → Bool
  | [] => false
  | t :: rest => if t = s then true else statusMem s rest

/-- Scan of an effect list checking that every `broadcast s` is preceded by
a `persist s _` (a durable-record attempt for the same status). -/
def scanPersistBeforeBroadcast (seen : List ServerStatus) :
    List Effect → Bool
  | [] => true
  | .persist s _ :: rest => scanPersistBeforeBroadcast (s :: seen) rest
  | .broadcast s :: rest =>
      statusMem s seen && scanPersistBeforeBroadcast seen rest
  | _ :: rest => scanPersistBeforeBroadcast seen rest

/-- Every broadcast in the effect list is preceded by a persistence
attempt for the same status. -/
def persistPrecedesBroadcast (effects : List Effect) : Bool :=
  scanPersistBeforeBroadcast [] effects

/-- Claim C1: for every invocation of `handleToolCall` and every outcome of
the underlying exchange, the returned result is a well-formed result object
(one text content item) whose `isError` field is `false` exactly when the
exchange succeeded; totality of the function embeds that no exception
escapes to the caller. -/
theorem callTool_isError_iff_exchange_failed (env : BridgeEnv)
    (name : String) (args : JVal) :
    ((handleToolCall env name args).2.isError = false ↔
      ∃ v, env.exchange ⟨.jobj [("name", .jstr name), ("args", args)],
        .CALL_TOOL, 30000⟩ = .ok v) ∧
    (handleToolCall env name args).2.content.length = 1 := by
  unfold handleToolCall sendRequestToExtensionAndWait
  cases h : env.exchange ⟨.jobj [("name", .jstr name), ("args", args)],
      .CALL_TOOL, 30000⟩ <;>
    simp [h]

/-- Claim C2: a `CALL_TOOL` frame carrying a `requestId` whose tool
execution throws produces exactly one response frame, addressed to that
`requestId`, with payload status `error`; the handler returns normally
(the failure does not propagate) and the module state is unchanged. -/
theorem toolCallFailure_sendsErrorResponse (env : DispatchEnv)
    (status : ServerStatus) (requestId : Nat) (payload : JVal) (e : String)
    (h : env.handleCallTool payload = .error e) :
    onNativeMessage env ⟨true, status⟩ ⟨.CALL_TOOL, some requestId, payload⟩ =
      (⟨true, status⟩, [.sendFrame (.response requestId
        ⟨"error", ERROR_MESSAGES.TOOL_EXECUTION_FAILED, none, some e⟩)]) := by
  simp [onNativeMessage, h, postMessageOpt]

/-- Witness for C2 at a concrete frame and a tool that throws. -/
theorem toolCallFailure_sendsErrorResponse_witness :
    onNativeMessage ⟨0, fun _ => .error "boom", true⟩ ⟨true, ⟨false, none, 0⟩⟩
        ⟨.CALL_TOOL, some 7, .jnull⟩ =
      (⟨true, ⟨false, none, 0⟩⟩, [.sendFrame (.response 7
        ⟨"error", ERROR_MESSAGES.TOOL_EXECUTION_FAILED, none, some "boom"⟩)]) :=
  toolCallFailure_sendsErrorResponse ⟨0, fun _ => .error "boom", true⟩
    ⟨false, none, 0⟩ 7 .jnull "boom" rfl

/-- Claim C3: after a `SERVER_STARTED` frame with payload port `p` followed
by a `SERVER_STOPPED` frame, the server status has `isRunning = false` and
`port` still equal to `p` (retained), and a `GET_SERVER_STATUS` query
returns exactly that status. -/
theorem serverStopped_retainsPort (env1 env2 : DispatchEnv) (st : HostState)
    (rid1 rid2 : Option Nat) (stopPayload : JVal) (p : Int) :
    ((onNativeMessage env2
        (onNativeMessage env1 st
          ⟨.SERVER_STARTED, rid1, .jobj [("port", .jnum p)]⟩).1
        ⟨.SERVER_STOPPED, rid2, stopPayload⟩).1.currentServerStatus =
      ⟨false, some p, env2.now⟩) ∧
    getServerStatusResponse
        (onNativeMessage env2
          (onNativeMessage env1 st
            ⟨.SERVER_STARTED, rid1, .jobj [("port", .jnum p)]⟩).1
          ⟨.SERVER_STOPPED, rid2, stopPayload⟩).1 =
      ⟨true, ⟨false, some p, env2.now⟩, st.nativePort⟩ := by
  simp [onNativeMessage, getServerStatusResponse, JVal.getNumField,
    JVal.getField, List.find?]

/-- Claim C4: for every `SERVER_STARTED` or `SERVER_STOPPED` frame, the
persistence attempt for the new status (successful write, or its failure
recorded) occurs in the handler's effect sequence before the status-change
broadcast; no broadcast happens without a preceding durable-record
attempt. -/
theorem statusFrames_persistBeforeBroadcast (env : DispatchEnv)
    (st : HostState) (msg : NativeMessage)
    (h : msg.type = .SERVER_STARTED ∨ msg.type = .SERVER_STOPPED) :
    persistPrecedesBroadcast (onNativeMessage env st msg).2 = true := by
  obtain ⟨t, rid, payload⟩ := msg
  simp only at h
  rcases h with h | h <;> subst h <;> cases hok : env.storageOk <;>
    simp [onNativeMessage, saveServerStatus, broadcastServerStatusChange,
      persistPrecedesBroadcast, scanPersistBeforeBroadcast, statusMem, hok]

/-- Witness for C4 at a concrete `SERVER_STARTED` frame. -/
theorem statusFrames_persistBeforeBroadcast_witness :
    persistPrecedesBroadcast
      (onNativeMessage ⟨5, fun _ => .ok .jnull, true⟩ ⟨true, ⟨false, none, 0⟩⟩
        ⟨.SERVER_STARTED, none, .jobj [("port", .jnum 9222)]⟩).2 = true :=
  statusFrames_persistBeforeBroadcast ⟨5, fun _ => .ok .jnull, true⟩
    ⟨true, ⟨false, none, 0⟩⟩
    ⟨.SERVER_STARTED, none, .jobj [("port", .jnum 9222)]⟩ (Or.inl rfl)

/-- Claim C5: the list-tools handler issues a `LIST_TOOLS` request with a
30000 ms timeout and on success returns the catalog built from the reply's
`data` field; `handleToolCall` issues a `CALL_TOOL` request whose payload
is the object with the `name` and `args` fields, also with a 30000 ms
timeout. -/
theorem toolBridge_requestShape_and_timeout (env : BridgeEnv)
    (name : String) (args : JVal) :
    (listToolsHandler env).1 = ⟨.jobj [], .LIST_TOOLS, 30000⟩ ∧
    (listToolsHandler env).2 =
      (env.exchange ⟨.jobj [], .LIST_TOOLS, 30000⟩).map
        (fun tools => .jobj [("tools", tools.getField "data")]) ∧
    (handleToolCall env name args).1 =
      ⟨.jobj [("name", .jstr name), ("args", args)], .CALL_TOOL, 30000⟩ := by
  refine ⟨rfl, rfl, ?_⟩
  unfold handleToolCall sendRequestToExtensionAndWait
  cases h : env.exchange ⟨.jobj [("name", .jstr name), ("args", args)],
      .CALL_TOOL, 30000⟩ <;>
    simp [h]

/-- Claim C6: a `PROCESS_DATA` frame carrying a `requestId` produces
exactly one response frame addressed to that `requestId`, with payload
status `success` and the inbound payload echoed unchanged in its `data`
field; the module state is unchanged. -/
theorem processData_echoesPayload (env : DispatchEnv)
    (status : ServerStatus) (requestId : Nat) (payload : JVal) :
    onNativeMessage env ⟨true, status⟩ ⟨.PROCESS_DATA, some requestId, payload⟩ =
      (⟨true, status⟩, [.sendFrame (.response requestId
        ⟨"success", SUCCESS_MESSAGES.TOOL_EXECUTED, some payload, none⟩)]) := by
  simp [onNativeMessage, postMessageOpt]

/-- Claim C7: a frame whose type is outside the dispatcher's handled
vocabulary produces no response frame and no state change; its only effect
is a log line. -/
theorem unknownType_noResponse_noStateChange (env : DispatchEnv)
    (st : HostState) (msg : NativeMessage)
    (h : msg.type ∉ ([.PROCESS_DATA, .CALL_TOOL, .SERVER_STARTED,
      .SERVER_STOPPED, .ERROR_FROM_NATIVE_HOST] : List NativeMessageType)) :
    onNativeMessage env st msg =
      (st, [.logEvent ("Received unknown message type from native host: "
        ++ msg.type.name)]) := by
  obtain ⟨t, rid, payload⟩ := msg
  simp only [List.mem_cons, List.not_mem_nil, or_false] at h
  push_neg at h
  cases t <;> first
    | rfl
    | (cases rid <;> rfl)
    | simp_all

/-- Witness for C7 at a concrete unrecognized frame type. -/
theorem unknownType_noResponse_noStateChange_witness :
    onNativeMessage ⟨0, fun _ => .ok .jnull, true⟩ ⟨true, ⟨false, none, 0⟩⟩
        ⟨.other "bogus", some 3, .jnull⟩ =
      (⟨true, ⟨false, none, 0⟩⟩,
       [.logEvent ("Received unknown message type from native host: "
         ++ (NativeMessageType.other "bogus").name)]) :=
  unknownType_noResponse_noStateChange ⟨0, fun _ => .ok .jnull, true⟩
    ⟨true, ⟨false, none, 0⟩⟩ ⟨.other "bogus", some 3, .jnull⟩ (by decide)

/-- Claim C8: the uncaught-exception handler logs and exits with code 1
(non-zero); the unhandled-rejection handler logs and does not exit; a
log-write failure is swallowed, leaving the log unchanged and raising
nothing. -/
theorem processLevel_exceptionHandling (w : Bool) (ts : String)
    (st : LogState) (em es rm : String) :
    (onUncaughtException w ts st em es).exitCode = some 1 ∧
    (onUncaughtException true ts st em es).logState.entries =
      st.entries ++ ["[" ++ ts ++ "] "
        ++ ("Uncaught exception: " ++ em ++ "\nStack: " ++ es) ++ "\n"] ∧
    (onUnhandledRejection w ts st rm).exitCode = none ∧
    (onUnhandledRejection true ts st rm).logState.entries =
      st.entries ++ ["[" ++ ts ++ "] "
        ++ ("Unhandled rejection: " ++ rm) ++ "\n"] ∧
    (onUncaughtException false ts st em es).logState = st ∧
    (onUnhandledRejection false ts st rm).logState = st := by
  simp [onUncaughtException, onUnhandledRejection, log]

/-- Claim C9: `connectNativeHost` on an already-connected state is a no-op
(no frame sent, state unchanged, only a log line); from a disconnected
state with a successful `connectNative` it forms the channel and sends the
`start` frame carrying the port; a repeated call after a successful
connect is again the no-op, so calls are idempotent while connected. -/
theorem connectNativeHost_idempotentWhileConnected (env env2 : ConnectEnv)
    (p p2 : Int) (status : ServerStatus) :
    (connectNativeHost env p ⟨true, status⟩ =
      (⟨true, status⟩,
       [.logEvent "Native port already connected, skipping connection"])) ∧
    (env.connectSucceeds = true →
      connectNativeHost env p ⟨false, status⟩ =
        (⟨true, status⟩, [.sendFrame (startFrame p)])) ∧
    (env.connectSucceeds = true →
      connectNativeHost env2 p2 (connectNativeHost env p ⟨false, status⟩).1 =
        ((connectNativeHost env p ⟨false, status⟩).1,
         [.logEvent "Native port already connected, skipping connection"])) := by
  refine ⟨rfl, fun h => ?_, fun h => ?_⟩ <;>
    simp [connectNativeHost, h]

/-- Witness for C9 at concrete environments and states. -/
theorem connectNativeHost_idempotentWhileConnected_witness :
    (connectNativeHost ⟨true⟩ 9222 ⟨true, ⟨false, none, 0⟩⟩ =
      (⟨true, ⟨false, none, 0⟩⟩,
       [.logEvent "Native port already connected, skipping connection"])) ∧
    (connectNativeHost ⟨true⟩ 9222 ⟨false, ⟨false, none, 0⟩⟩ =
      (⟨true, ⟨false, none, 0⟩⟩, [.sendFrame (startFrame 9222)])) ∧
    (connectNativeHost ⟨true⟩ 9300
        (connectNativeHost ⟨true⟩ 9222 ⟨false, ⟨false, none, 0⟩⟩).1 =
      ((connectNativeHost ⟨true⟩ 9222 ⟨false, ⟨false, none, 0⟩⟩).1,
       [.logEvent "Native port already connected, skipping connection"])) :=
  let h := connectNativeHost_idempotentWhileConnected ⟨true⟩ ⟨true⟩ 9222 9300
    ⟨false, none, 0⟩
  ⟨h.1, h.2.1 rfl, h.2.2 rfl⟩

/-- Claim C10: a `PROCESS_DATA` or `CALL_TOOL` frame without a `requestId`
is not acted on (no echo, no tool invocation, no response frame); it falls
through to the unknown-type branch and is only logged. -/
theorem missingRequestId_fallsThroughToLog (env : DispatchEnv)
    (st : HostState) (t : NativeMessageType) (payload : JVal)
    (h : t = .PROCESS_DATA ∨ t = .CALL_TOOL) :
    onNativeMessage env st ⟨t, none, payload⟩ =
      (st, [.logEvent ("Received unknown message type from native host: "
        ++ t.name)]) := by
  rcases h with h | h <;> subst h <;> rfl

/-- Witness for C10 at a concrete `PROCESS_DATA` frame without a
`requestId`. -/
theorem missingRequestId_fallsThroughToLog_witness :
    onNativeMessage ⟨0, fun _ => .ok .jnull, true⟩ ⟨true, ⟨false, none, 0⟩⟩
        ⟨.PROCESS_DATA, none, .jstr "data"⟩ =
      (⟨true, ⟨false, none, 0⟩⟩,
       [.logEvent ("Received unknown message type from native host: "
         ++ NativeMessageType.PROCESS_DATA.name)]) :=
  missingRequestId_fallsThroughToLog ⟨0, fun _ => .ok .jnull, true⟩
    ⟨true, ⟨false, none, 0⟩⟩ .PROCESS_DATA (.jstr "data") (Or.inl rfl)

end McpChrome
